import Mathlib

/-!
Verification of `scripts/combine-and-bzip-csvs/main.py`: a pipeline that lists
the `.csv` objects under a bucket/path in remote object storage, downloads them
in parallel, concatenates their bodies, bzip2-compresses the concatenation and
uploads the result as a single destination object.  Two variants exist in the
source: `combine_and_upload_high_ram` (lines 67-196) and
`combine_and_upload_streaming_chunked` (lines 198-267).

Modelling choices, all from the source:
* Python strings (object paths, bucket names, error messages, the interactive
  response) are lists of Unicode code points (`List ℕ`); Python compares and
  sorts strings lexicographically by code point, which is exactly the
  lexicographic order on `List ℕ`.
* Object bodies and the compressed output are byte lists (`List ℕ`).
* Python exceptions are modelled by the explicit result type `Res`: a raising
  call returns `.err msg`, a normal one `.ok value`.
* The bzip2 compressor (`bz2.BZ2File`, `mode='wb'`, `compresslevel=9`) is an
  external library; the byte stream written into it is modelled exactly, and
  the compressed image is `compress stream` for a parameter `compress`
  standing for the fixed deterministic bzip2-level-9 encoder.
* Thread scheduling: `as_completed` (lines 129, 245) yields download results
  in an arbitrary arrival order, modelled by an explicit permutation `order`
  of the task indices.  Float arithmetic in the size estimate (lines 96-98) is
  modelled by exact rational arithmetic.
-/

namespace CombineCsv

/-- A Python byte string: object body bytes or compressed output bytes. -/
abbrev Bytes := List ℕ

/-- A Python text string as its list of code points (paths, bucket names,
error messages, prompt responses).  Python's `<`/`sort()` on `str` is
code-point-lexicographic, matching the lexicographic order on `List ℕ`. -/
abbrev PyStr := List ℕ

/-- Result of a Python call that may raise: `.ok` for a normal return,
`.err msg` for a propagating exception. -/
inductive Res (α : Type) where
  | ok (a : α)
  | err (e : PyStr)
deriving DecidableEq

/-- Whether a call returned normally. -/
def Res.isOk {α : Type} : Res α → Bool
  | .ok _ => true
  | .err _ => false

/-- Map a fallible call over a list, stopping at the first exception
(the semantics of a `for`-loop of calls, or of `sum(... for f in files)`
on line 96 and of the `as_completed` consumption loops). -/
def mapRes {α β : Type} (f : α → Res β) : List α → Res (List β)
  | [] => .ok []
  | a :: rest =>
    match f a with
    | .err e => .err e
    | .ok b =>
      match mapRes f rest with
      | .err e => .err e
      | .ok bs => .ok (b :: bs)

/-- Environment-sourced configuration, lines 20-26.  `gcsPathFilter` is the
object-path filter under the source bucket (the environment variable whose
default is the empty string, line 23). -/
structure Config where
  SOURCE_BUCKET : PyStr
  DEST_BUCKET : PyStr
  DEST_FILENAME : PyStr
  gcsPathFilter : PyStr
  MAX_WORKERS : ℕ
  MEMORY_LIMIT_GB : ℕ
deriving DecidableEq

/-- Default of `MAX_WORKERS` (line 24). -/
def MAX_WORKERS_DEFAULT : ℕ := 32

/-- Default of `MEMORY_LIMIT_GB` (line 26). -/
def MEMORY_LIMIT_GB_DEFAULT : ℕ := 80

/-- The `compresslevel` passed to `bz2.BZ2File` in the high-RAM variant
(line 152); 9 is the maximum bzip2 compression level. -/
def compressLevelHighRam : ℕ := 9

/-- The `compresslevel` passed to `bz2.BZ2File` in the streaming variant
(line 251). -/
def compressLevelStreaming : ℕ := 9

/-- The remote object store as used through `gcsfs`: `fs.find` (listing under
a path), `fs.size`, and `fs.open(...).read()`; the latter two may raise. -/
structure GCSFileSystem where
  find : PyStr → List PyStr
  size : PyStr → Res ℕ
  read : PyStr → Res Bytes

/-- The keyword arguments of the `GCSFileSystem` constructor that configure
caching and the per-request network timeout. -/
structure GCSFileSystemInit where
  cache_timeout : Option ℕ
  listings_expiry_time : Option ℕ
  skip_instance_cache : Bool
  requests_timeout : Option ℕ
deriving DecidableEq

/-- Constructor arguments used by the high-RAM variant (lines 73-78):
a 300-second per-request timeout is configured. -/
def highRamFsInit : GCSFileSystemInit :=
  { cache_timeout := some 600, listings_expiry_time := some 600,
    skip_instance_cache := false, requests_timeout := some 300 }

/-- Constructor arguments used by the streaming variant (lines 203-207):
no per-request timeout is configured. -/
def streamingFsInit : GCSFileSystemInit :=
  { cache_timeout := some 600, listings_expiry_time := some 600,
    skip_instance_cache := false, requests_timeout := none }

/-- The code points of `".csv"` (the suffix filter on lines 83 and 212). -/
def csvSuffix : PyStr := [46, 99, 115, 118]

/-- The code points of `"application/x-bzip2"` (the destination content type
on lines 182 and 264). -/
def CONTENT_TYPE_BZIP2 : PyStr :=
  [97, 112, 112, 108, 105, 99, 97, 116, 105, 111, 110, 47, 120, 45, 98, 122, 105, 112, 50]

/-- The code points of `"y"` (the accepted confirmation on line 106). -/
def yStr : PyStr := [121]

/-- Lines 80-84 (and identically 209-213): list the objects under
`SOURCE_BUCKET/<path filter>`, keep those whose path ends with `.csv`, and
sort the paths (`csv_files.sort()`, comment `Consistent ordering`). -/
def listCsvFiles (cfg : Config) (fs : GCSFileSystem) : List PyStr :=
  ((fs.find (cfg.SOURCE_BUCKET ++ [47] ++ cfg.gcsPathFilter)).filter
      (fun f => csvSuffix.isSuffixOf f)).insertionSort (· ≤ ·)

/-- Lines 43-65, `download_entire_file`: look up the object size (used for the
progress message), read the whole body, and return the body tagged with the
task's original index; any exception propagates to the caller. -/
def download_entire_file (fs : GCSFileSystem) (filePath : PyStr) (fileIndex : ℕ) :
    Res (ℕ × Bytes) :=
  match fs.size filePath with
  | .err e => .err e
  | .ok _ =>
    match fs.read filePath with
    | .err e => .err e
    | .ok fileData => .ok (fileIndex, fileData)

/-- Whether a code point is Python `str.strip()` whitespace
(space, tab, newline, carriage return, vertical tab, form feed). -/
def pyIsSpace (c : ℕ) : Bool :=
  c = 32 || c = 9 || c = 10 || c = 13 || c = 11 || c = 12

/-- Python `str.strip()`: drop leading and trailing whitespace. -/
def pyStrip (s : PyStr) : PyStr :=
  ((s.dropWhile pyIsSpace).reverse.dropWhile pyIsSpace).reverse

/-- Python `str.lower()` on one code point (ASCII letters). -/
def pyLowerChar (c : ℕ) : ℕ :=
  if 65 ≤ c ∧ c ≤ 90 then c + 32 else c

/-- Python `response.strip().lower()` (line 105). -/
def pyNormalize (s : PyStr) : PyStr :=
  (pyStrip s).map pyLowerChar

/-- Lines 93-98: sample the first `min 10 N` listed objects, sum their sizes
(any size-lookup exception propagates and is caught by the caller), average,
and project `avg_size * N` gigabytes.  Python float arithmetic is modelled by
exact rational arithmetic. -/
def estimateTotalGB (fs : GCSFileSystem) (csvFiles : List PyStr) : Res ℚ :=
  match mapRes fs.size (csvFiles.take (min 10 csvFiles.length)) with
  | .err e => .err e
  | .ok sizes =>
    .ok ((sizes.sum : ℚ) / ((csvFiles.take (min 10 csvFiles.length)).length : ℚ)
          * (csvFiles.length : ℚ) / ((1024 : ℚ) ^ 3))

/-- Lines 93-110: the size-estimation gate.  If the estimate raises, a warning
is printed and the run proceeds (`except` on line 109).  If the projection
exceeds `MEMORY_LIMIT_GB`, the run proceeds only when the prompted response,
stripped and lowercased, equals `"y"` (lines 102-107); otherwise it proceeds
unconditionally. -/
def highRamGate (cfg : Config) (fs : GCSFileSystem) (csvFiles : List PyStr)
    (response : PyStr) : Bool :=
  match estimateTotalGB fs csvFiles with
  | .err _ => true
  | .ok g =>
    if g > (cfg.MEMORY_LIMIT_GB : ℚ) then pyNormalize response == yStr else true

/-- Lines 121-135: consume the download futures in their arrival order
(`as_completed`); the first failing `future.result()` re-raises and the
exception propagates (lines 133-135); otherwise each `(index, data)` result is
inserted into `file_data_dict` (modelled as an association list keyed by the
task index). -/
def collectDownloads (fs : GCSFileSystem) (csvFiles : List PyStr) :
    List ℕ → List (ℕ × Bytes) → Res (List (ℕ × Bytes))
  | [], acc => .ok acc
  | i :: rest, acc =>
    match download_entire_file fs (csvFiles.getD i []) i with
    | .err e => .err e
    | .ok r => collectDownloads fs csvFiles rest (acc ++ [r])

/-- Lines 152-160: write the downloaded bodies into the compressor in index
order `0, 1, ..., n-1`.  A present index contributes its bytes
(`bz2_writer.write`); a missing index only prints a warning (line 160).
Returns the uncompressed stream fed to the compressor together with the list
of indices for which the missing-data warning was printed; step `n+1`
processes index `n` after indices `0..n-1`. -/
def writeOrderedChunks (fileDataDict : List (ℕ × Bytes)) : ℕ → Bytes × List ℕ
  | 0 => ([], [])
  | n + 1 =>
    let p := writeOrderedChunks fileDataDict n
    match fileDataDict.lookup n with
    | some data => (p.1 ++ data, p.2)
    | none => (p.1, p.2 ++ [n])

/-- A destination-object write (`blob.upload_from_file`, lines 179-184 and
264): bucket, blob name, content type, uploaded bytes, and the timeout passed
to the upload call (if any). -/
structure Upload where
  bucket : PyStr
  name : PyStr
  contentType : PyStr
  body : Bytes
  timeoutSecs : Option ℕ
deriving DecidableEq

/-- The observable outcome of `combine_and_upload_high_ram`. -/
inductive HighRamResult where
  /-- Lines 86-88: the listing matched no `.csv` object; print and return. -/
  | noCsvFiles
  /-- Lines 106-107: the memory-budget prompt was declined; return before any
  download, compression or upload. -/
  | aborted
  /-- Lines 63-65 and 129-135: a download raised and the exception
  propagated; no upload happens. -/
  | downloadError (e : PyStr)
  /-- Lines 149-196: the compressed stream was uploaded; `missing` lists the
  indices for which line 160 printed a missing-data warning. -/
  | done (up : Upload) (missing : List ℕ)
deriving DecidableEq

/-- Lines 67-196, `combine_and_upload_high_ram`: list and sort the `.csv`
objects (empty listing returns at line 88); run the size-estimation gate
(lines 93-110, returning at line 107 when the prompt is declined); download
everything in parallel, consuming completions in arrival order `order`
(lines 121-135, first failure fatal); write the bodies into the bzip2
compressor in index order (lines 152-160); upload the compressed buffer to
`DEST_BUCKET/DEST_FILENAME` with content type `application/x-bzip2` and a
7200-second timeout (lines 179-184). -/
def combine_and_upload_high_ram (cfg : Config) (fs : GCSFileSystem)
    (order : List ℕ) (response : PyStr) (compress : Bytes → Bytes) :
    HighRamResult :=
  if (listCsvFiles cfg fs).isEmpty then .noCsvFiles
  else if highRamGate cfg fs (listCsvFiles cfg fs) response then
    match collectDownloads fs (listCsvFiles cfg fs) order [] with
    | .err e => .downloadError e
    | .ok dict =>
      .done
        { bucket := cfg.DEST_BUCKET, name := cfg.DEST_FILENAME,
          contentType := CONTENT_TYPE_BZIP2,
          body := compress (writeOrderedChunks dict (listCsvFiles cfg fs).length).1,
          timeoutSecs := some 7200 }
        (writeOrderedChunks dict (listCsvFiles cfg fs).length).2
  else .aborted

/-- Lines 198-267, `combine_and_upload_streaming_chunked`: list and sort the
`.csv` objects (no empty-listing check); download in parallel and append each
body to `all_data` in arrival order (`as_completed`, lines 243-246; a failing
`future.result()` propagates); compress `all_data` in that arrival order
(lines 251-253); upload to `DEST_BUCKET/DEST_FILENAME` with content type
`application/x-bzip2` and no timeout argument (line 264). -/
def combine_and_upload_streaming_chunked (cfg : Config) (fs : GCSFileSystem)
    (order : List ℕ) (compress : Bytes → Bytes) : Res Upload :=
  match mapRes (fun i => fs.read ((listCsvFiles cfg fs).getD i [])) order with
  | .err e => .err e
  | .ok allData =>
    .ok { bucket := cfg.DEST_BUCKET, name := cfg.DEST_FILENAME,
          contentType := CONTENT_TYPE_BZIP2,
          body := compress allData.flatten, timeoutSecs := none }

/-- Execution model of `ThreadPoolExecutor(max_workers=W)` (lines 121 and
243): each submitted task is executed on one of `W` worker threads during a
half-open time interval, and two tasks assigned to the same worker occupy
disjoint intervals. -/
structure PoolSchedule (W n : ℕ) where
  worker : Fin n → Fin W
  startT : Fin n → ℕ
  finishT : Fin n → ℕ
  start_lt_finish : ∀ i, startT i < finishT i
  same_worker_disjoint : ∀ i j, i ≠ j → worker i = worker j →
    finishT i ≤ startT j ∨ finishT j ≤ startT i

/-- The set of tasks executing at instant `t` under a pool schedule. -/
def PoolSchedule.active {W n : ℕ} (s : PoolSchedule W n) (t : ℕ) : Finset (Fin n) :=
  Finset.univ.filter fun i => s.startT i ≤ t ∧ t < s.finishT i

/-- Example path `"a.csv"` as code points. -/
def pA : PyStr := [97, 46, 99, 115, 118]

/-- Example path `"b.csv"` as code points. -/
def pB : PyStr := [98, 46, 99, 115, 118]

/-- Example configuration: source bucket `"s"`, destination bucket `"d"`,
destination blob name `"o"`, empty path filter, defaults for the rest. -/
def exampleCfg : Config :=
  { SOURCE_BUCKET := [115], DEST_BUCKET := [100], DEST_FILENAME := [111],
    gcsPathFilter := [], MAX_WORKERS := 32, MEMORY_LIMIT_GB := 80 }

/-- Example store: two objects `"b.csv"`, `"a.csv"` (listed unsorted), with
bodies `"1"` and `"2"` and size 1 byte each; every operation succeeds. -/
def exampleFs : GCSFileSystem :=
  { find := fun _ => [pB, pA]
    size := fun p => if p = pA ∨ p = pB then .ok 1 else .err [63]
    read := fun p => if p = pA then .ok [49] else if p = pB then .ok [50] else .err [63] }

/-- Example store in which reading `"b.csv"` raises (one failing retrieval). -/
def failFs : GCSFileSystem :=
  { find := fun _ => [pB, pA]
    size := fun p => if p = pA ∨ p = pB then .ok 1 else .err [63]
    read := fun p => if p = pA then .ok [49] else .err [66] }

/-- Example store whose objects report a size of 2^40 bytes each, so the
projected total (2 TiB) exceeds the 80 GB budget. -/
def bigFs : GCSFileSystem :=
  { find := fun _ => [pB, pA]
    size := fun p => if p = pA ∨ p = pB then .ok (2 ^ 40) else .err [63]
    read := fun p => if p = pA then .ok [49] else if p = pB then .ok [50] else .err [63] }

/-- Example store with an empty listing. -/
def emptyFs : GCSFileSystem :=
  { find := fun _ => [], size := fun _ => .err [63], read := fun _ => .err [63] }

/-- Bodies of the example objects, keyed by path. -/
def exampleBody : PyStr → Bytes := fun p => if p = pA then [49] else [50]

/-- A concrete two-task schedule on the example pool: both tasks on worker 0,
one after the other. -/
def examplePool : PoolSchedule exampleCfg.MAX_WORKERS 2 :=
  { worker := fun _ => ⟨0, by decide⟩
    startT := fun i => i.val
    finishT := fun i => i.val + 1
    start_lt_finish := fun i => Nat.lt_succ_self _
    same_worker_disjoint := by decide }

/-! Supporting lemmas. -/

theorem mapRes_ok_of_forall {α β : Type} (f : α → Res β) (g : α → β) :
    ∀ l : List α, (∀ a ∈ l, f a = .ok (g a)) → mapRes f l = .ok (l.map g) := by
  intro l
  induction l with
  | nil => intro _; rfl
  | cons a rest ih =>
    intro h
    have ha : f a = .ok (g a) := h a (by simp)
    have hr : mapRes f rest = .ok (rest.map g) := ih fun b hb => h b (by simp [hb])
    simp [mapRes, ha, hr]

theorem mapRes_forall_isOk {α β : Type} (f : α → Res β) :
    ∀ (l : List α) (bs : List β), mapRes f l = .ok bs → ∀ a ∈ l, (f a).isOk = true := by
  intro l
  induction l with
  | nil => simp
  | cons a rest ih =>
    intro bs h b hb
    cases hfa : f a with
    | err e => rw [mapRes, hfa] at h; exact absurd h (by simp)
    | ok v =>
      rcases List.mem_cons.mp hb with rfl | hb
      · simp [hfa, Res.isOk]
      · rw [mapRes, hfa] at h
        cases hrest : mapRes f rest with
        | err e => rw [hrest] at h; exact absurd h (by simp)
        | ok bs' => exact ih bs' hrest b hb

theorem download_entire_file_ok (fs : GCSFileSystem) (p : PyStr) (i : ℕ)
    (k : ℕ) (hs : fs.size p = .ok k) (b : Bytes) (hr : fs.read p = .ok b) :
    download_entire_file fs p i = .ok (i, b) := by
  simp [download_entire_file, hs, hr]

theorem download_entire_file_isOk (fs : GCSFileSystem) (p : PyStr) (i : ℕ) :
    (download_entire_file fs p i).isOk = ((fs.size p).isOk && (fs.read p).isOk) := by
  cases hs : fs.size p <;> cases hr : fs.read p <;>
    simp [download_entire_file, hs, hr, Res.isOk]

theorem collectDownloads_ok (fs : GCSFileSystem) (csvFiles : List PyStr)
    (B : ℕ → Bytes) :
    ∀ (order : List ℕ) (acc : List (ℕ × Bytes)),
      (∀ i ∈ order, download_entire_file fs (csvFiles.getD i []) i = .ok (i, B i)) →
      collectDownloads fs csvFiles order acc = .ok (acc ++ order.map fun i => (i, B i)) := by
  intro order
  induction order with
  | nil => intro acc _; simp [collectDownloads]
  | cons i rest ih =>
    intro acc h
    have hi : download_entire_file fs (csvFiles.getD i []) i = .ok (i, B i) := h i (by simp)
    have hrest := ih (acc ++ [(i, B i)])
      (fun j hj => h j (List.mem_cons.mpr (Or.inr hj)))
    rw [collectDownloads, hi]
    show collectDownloads fs csvFiles rest (acc ++ [(i, B i)]) = _
    rw [hrest]
    simp

theorem collectDownloads_forall_isOk (fs : GCSFileSystem) (csvFiles : List PyStr) :
    ∀ (order : List ℕ) (acc d : List (ℕ × Bytes)),
      collectDownloads fs csvFiles order acc = .ok d →
      ∀ i ∈ order, (download_entire_file fs (csvFiles.getD i []) i).isOk = true := by
  intro order
  induction order with
  | nil => simp
  | cons i rest ih =>
    intro acc d h j hj
    cases hd : download_entire_file fs (csvFiles.getD i []) i with
    | err e => rw [collectDownloads, hd] at h; exact absurd h (by simp)
    | ok r =>
      rcases List.mem_cons.mp hj with rfl | hj
      · rw [hd]; rfl
      · rw [collectDownloads, hd] at h
        exact ih (acc ++ [r]) d h j hj

theorem lookup_map_pair (B : ℕ → Bytes) :
    ∀ (order : List ℕ) (j : ℕ), j ∈ order →
      (order.map fun i => (i, B i)).lookup j = some (B j) := by
  intro order
  induction order with
  | nil => simp
  | cons i rest ih =>
    intro j hj
    by_cases hji : j = i
    · simp [List.lookup, hji]
    · rcases List.mem_cons.mp hj with hj | hj
      · exact absurd hj hji
      · have hbeq : (j == i) = false := beq_eq_false_iff_ne.mpr hji
        simpa [List.lookup, hbeq] using ih j hj

theorem writeOrderedChunks_fst (d : List (ℕ × Bytes)) :
    ∀ n : ℕ, (writeOrderedChunks d n).1 =
      ((List.range n).map fun i => (d.lookup i).getD []).flatten := by
  intro n
  induction n with
  | zero => rfl
  | succ n ih =>
    rw [writeOrderedChunks]
    cases h : d.lookup n <;> simp [h, List.range_succ, ih]

theorem writeOrderedChunks_snd (d : List (ℕ × Bytes)) :
    ∀ n : ℕ, (writeOrderedChunks d n).2 =
      (List.range n).filter fun i => (d.lookup i).isNone := by
  intro n
  induction n with
  | zero => rfl
  | succ n ih =>
    rw [writeOrderedChunks]
    cases h : d.lookup n <;> simp [h, List.range_succ, List.filter_append, ih]

theorem writeOrderedChunks_all_present (d : List (ℕ × Bytes)) (B : ℕ → Bytes)
    (n : ℕ) (h : ∀ i, i < n → d.lookup i = some (B i)) :
    writeOrderedChunks d n = (((List.range n).map B).flatten, []) := by
  have h1 := writeOrderedChunks_fst d n
  have h2 := writeOrderedChunks_snd d n
  have hmap : ((List.range n).map fun i => (d.lookup i).getD []) = (List.range n).map B := by
    apply List.map_congr_left
    intro i hi
    rw [h i (List.mem_range.mp hi)]
    rfl
  have hfilter : ((List.range n).filter fun i => (d.lookup i).isNone) = [] := by
    apply List.filter_eq_nil_iff.mpr
    intro i hi
    rw [h i (List.mem_range.mp hi)]
    simp
  rcases hw : writeOrderedChunks d n with ⟨s, w⟩
  rw [hw] at h1 h2
  simp only at h1 h2
  rw [h1, h2, hmap, hfilter]

theorem map_getD_range {α β : Type} (dflt : α) (f : α → β) :
    ∀ l : List α, (List.range l.length).map (fun i => f (l.getD i dflt)) = l.map f := by
  intro l
  induction l with
  | nil => rfl
  | cons a t ih =>
    rw [List.length_cons, List.range_succ_eq_map]
    simp only [List.map_cons, List.map_map]
    refine congrArg₂ _ rfl ?_
    have hcomp : ((fun i => f ((a :: t).getD i dflt)) ∘ Nat.succ) =
        fun i => f (t.getD i dflt) := by
      funext i
      simp [List.getD]
    rw [hcomp, ih]

theorem listCsvFiles_eq (cfg : Config) (fs : GCSFileSystem) (L : List PyStr)
    (hL : L.Perm ((fs.find (cfg.SOURCE_BUCKET ++ [47] ++ cfg.gcsPathFilter)).filter
        (fun f => csvSuffix.isSuffixOf f)))
    (hsorted : L.Sorted (· ≤ ·)) : listCsvFiles cfg fs = L :=
  List.eq_of_perm_of_sorted ((List.perm_insertionSort _ _).trans hL.symm)
    (List.sorted_insertionSort _ _) hsorted

theorem highram_run_cases (cfg : Config) (fs : GCSFileSystem) (order : List ℕ)
    (response : PyStr) (compress : Bytes → Bytes) (B : PyStr → Bytes) (L : List PyStr)
    (hlist : listCsvFiles cfg fs = L)
    (horder : order.Perm (List.range L.length))
    (hsize : ∀ p ∈ L, ∃ k, fs.size p = .ok k)
    (hread : ∀ p ∈ L, fs.read p = .ok (B p))
    (hne : L ≠ []) :
    combine_and_upload_high_ram cfg fs order response compress = .aborted ∨
    combine_and_upload_high_ram cfg fs order response compress =
      .done ⟨cfg.DEST_BUCKET, cfg.DEST_FILENAME, CONTENT_TYPE_BZIP2,
             compress (L.map B).flatten, some 7200⟩ [] := by
  have hmem : ∀ i ∈ order, i < L.length := fun i hi =>
    List.mem_range.mp (horder.mem_iff.mp hi)
  have hdl : ∀ i ∈ order,
      download_entire_file fs (L.getD i []) i = .ok (i, B (L.getD i [])) := by
    intro i hi
    have hpmem : L.getD i [] ∈ L := by
      rw [List.getD_eq_getElem L [] (hmem i hi)]
      exact List.getElem_mem _
    obtain ⟨k, hk⟩ := hsize _ hpmem
    exact download_entire_file_ok fs _ i k hk _ (hread _ hpmem)
  have hcd : collectDownloads fs L order [] =
      .ok (order.map fun i => (i, B (L.getD i []))) := by
    simpa using collectDownloads_ok fs L (fun i => B (L.getD i [])) order [] hdl
  have hw : writeOrderedChunks (order.map fun i => (i, B (L.getD i []))) L.length =
      (((List.range L.length).map fun i => B (L.getD i [])).flatten, []) :=
    writeOrderedChunks_all_present _ _ _ fun j hj =>
      lookup_map_pair _ order j (horder.mem_iff.mpr (List.mem_range.mpr hj))
  have hflat : ((List.range L.length).map fun i => B (L.getD i [])).flatten =
      (L.map B).flatten := by
    rw [map_getD_range]
  have hempty : L.isEmpty = false := by
    cases L with
    | nil => exact absurd rfl hne
    | cons a t => rfl
  unfold combine_and_upload_high_ram
  rw [hlist, hempty, if_neg (by decide : ¬(false = true))]
  cases hg : highRamGate cfg fs L response
  · left
    rw [if_neg (by decide : ¬(false = true))]
  · right
    rw [if_pos rfl, hcd]
    show HighRamResult.done _ _ = _
    rw [hw, hflat]

theorem highRamGate_eq_false_iff (cfg : Config) (fs : GCSFileSystem)
    (csvFiles : List PyStr) (response : PyStr) :
    highRamGate cfg fs csvFiles response = false ↔
      ∃ g : ℚ, estimateTotalGB fs csvFiles = .ok g ∧ g > (cfg.MEMORY_LIMIT_GB : ℚ) ∧
        pyNormalize response ≠ yStr := by
  unfold highRamGate
  cases hE : estimateTotalGB fs csvFiles with
  | err e => simp
  | ok g =>
    show (if g > (cfg.MEMORY_LIMIT_GB : ℚ) then pyNormalize response == yStr else true)
        = false ↔ _
    by_cases hlt : g > (cfg.MEMORY_LIMIT_GB : ℚ)
    · rw [if_pos hlt, beq_eq_false_iff_ne]
      constructor
      · intro hne
        exact ⟨g, rfl, hlt, hne⟩
      · rintro ⟨g', hg', -, hne⟩
        exact hne
    · rw [if_neg hlt]
      constructor
      · intro h
        exact absurd h (by simp)
      · rintro ⟨g', hg', hover, -⟩
        injection hg' with h
        subst h
        exact absurd hover hlt

theorem highram_aborted_iff (cfg : Config) (fs : GCSFileSystem) (order : List ℕ)
    (response : PyStr) (compress : Bytes → Bytes)
    (hne : listCsvFiles cfg fs ≠ []) :
    combine_and_upload_high_ram cfg fs order response compress = .aborted ↔
      highRamGate cfg fs (listCsvFiles cfg fs) response = false := by
  have hempty : (listCsvFiles cfg fs).isEmpty = false := by
    cases hL : listCsvFiles cfg fs with
    | nil => exact absurd hL hne
    | cons a t => rfl
  unfold combine_and_upload_high_ram
  rw [hempty, if_neg (by decide : ¬(false = true))]
  cases hg : highRamGate cfg fs (listCsvFiles cfg fs) response
  · rw [if_neg (by decide : ¬(false = true))]
    simp
  · rw [if_pos rfl]
    cases hcd : collectDownloads fs (listCsvFiles cfg fs) order [] with
    | err e => simp [hcd]
    | ok dict => simp [hcd]

theorem streaming_ok (cfg : Config) (fs : GCSFileSystem) (order : List ℕ)
    (compress : Bytes → Bytes) (B : PyStr → Bytes) (L : List PyStr)
    (hlist : listCsvFiles cfg fs = L)
    (hsub : ∀ i ∈ order, i < L.length)
    (hread : ∀ p ∈ L, fs.read p = .ok (B p)) :
    combine_and_upload_streaming_chunked cfg fs order compress =
      .ok ⟨cfg.DEST_BUCKET, cfg.DEST_FILENAME, CONTENT_TYPE_BZIP2,
           compress ((order.map fun i => B (L.getD i [])).flatten), none⟩ := by
  unfold combine_and_upload_streaming_chunked
  rw [hlist]
  have hm : mapRes (fun i => fs.read (L.getD i [])) order =
      .ok (order.map fun i => B (L.getD i [])) := by
    apply mapRes_ok_of_forall
    intro i hi
    have hpmem : L.getD i [] ∈ L := by
      rw [List.getD_eq_getElem L [] (hsub i hi)]
      exact List.getElem_mem _
    exact hread _ hpmem
  rw [hm]

theorem streaming_fails_of_read_err (cfg : Config) (fs : GCSFileSystem)
    (order : List ℕ) (compress : Bytes → Bytes) (i : ℕ) (hi : i ∈ order)
    (hbad : (fs.read ((listCsvFiles cfg fs).getD i [])).isOk = false) :
    ∀ up, combine_and_upload_streaming_chunked cfg fs order compress ≠ .ok up := by
  intro up h
  unfold combine_and_upload_streaming_chunked at h
  cases hm : mapRes (fun i => fs.read ((listCsvFiles cfg fs).getD i [])) order with
  | err e => rw [hm] at h; exact absurd h (by simp)
  | ok l =>
    have h2 := mapRes_forall_isOk _ order l hm i hi
    simp only at h2
    rw [hbad] at h2
    simp at h2

theorem streaming_ok_timeout (cfg : Config) (fs : GCSFileSystem) (order : List ℕ)
    (compress : Bytes → Bytes) (up : Upload)
    (h : combine_and_upload_streaming_chunked cfg fs order compress = .ok up) :
    up.timeoutSecs = none := by
  unfold combine_and_upload_streaming_chunked at h
  cases hm : mapRes (fun i => fs.read ((listCsvFiles cfg fs).getD i [])) order with
  | err e => rw [hm] at h; exact absurd h (by simp)
  | ok l =>
    rw [hm] at h
    injection h with h2
    rw [← h2]

theorem highram_done_timeout (cfg : Config) (fs : GCSFileSystem) (order : List ℕ)
    (response : PyStr) (compress : Bytes → Bytes) (up : Upload) (m : List ℕ)
    (h : combine_and_upload_high_ram cfg fs order response compress = .done up m) :
    up.timeoutSecs = some 7200 := by
  unfold combine_and_upload_high_ram at h
  by_cases he : (listCsvFiles cfg fs).isEmpty = true
  · rw [if_pos he] at h
    exact absurd h (by simp)
  · rw [if_neg he] at h
    by_cases hg : highRamGate cfg fs (listCsvFiles cfg fs) response = true
    · rw [if_pos hg] at h
      cases hcd : collectDownloads fs (listCsvFiles cfg fs) order [] with
      | err e => rw [hcd] at h; exact absurd h (by simp)
      | ok dict =>
        rw [hcd] at h
        injection h with h1 h2
        rw [← h1]
    · rw [if_neg hg] at h
      exact absurd h (by simp)

theorem isEmpty_false_of_ne_nil {α : Type} {l : List α} (h : l ≠ []) :
    l.isEmpty = false := by
  cases l with
  | nil => exact absurd rfl h
  | cons a t => rfl

theorem est_exampleFs : estimateTotalGB exampleFs [pA, pB] =
    .ok ((([1, 1] : List ℕ).sum : ℚ) /
      (((([pA, pB] : List PyStr).take (min 10 ([pA, pB] : List PyStr).length)).length : ℕ) : ℚ)
      * ((([pA, pB] : List PyStr).length : ℕ) : ℚ) / (1024 : ℚ) ^ 3) := by
  unfold estimateTotalGB
  rw [show mapRes exampleFs.size
      (([pA, pB] : List PyStr).take (min 10 ([pA, pB] : List PyStr).length)) =
      .ok [1, 1] from by decide]

theorem est_bigFs : estimateTotalGB bigFs [pA, pB] =
    .ok ((([2 ^ 40, 2 ^ 40] : List ℕ).sum : ℚ) /
      (((([pA, pB] : List PyStr).take (min 10 ([pA, pB] : List PyStr).length)).length : ℕ) : ℚ)
      * ((([pA, pB] : List PyStr).length : ℕ) : ℚ) / (1024 : ℚ) ^ 3) := by
  unfold estimateTotalGB
  rw [show mapRes bigFs.size
      (([pA, pB] : List PyStr).take (min 10 ([pA, pB] : List PyStr).length)) =
      .ok [2 ^ 40, 2 ^ 40] from by decide]

theorem gate_exampleFs (response : PyStr) :
    highRamGate exampleCfg exampleFs [pA, pB] response = true := by
  cases hg : highRamGate exampleCfg exampleFs [pA, pB] response
  · exfalso
    rcases (highRamGate_eq_false_iff _ _ _ _).mp hg with ⟨g, hgval, hover, -⟩
    rw [est_exampleFs] at hgval
    injection hgval with h
    rw [← h] at hover
    norm_num [List.length_take, pA, pB, exampleCfg] at hover
  · rfl

theorem gate_bigFs (response : PyStr) :
    highRamGate exampleCfg bigFs [pA, pB] response = (pyNormalize response == yStr) := by
  unfold highRamGate
  simp only [est_bigFs]
  rw [if_pos]
  norm_num [List.length_take, pA, pB, exampleCfg]

theorem exampleRun_done (order : List ℕ) (response : PyStr)
    (horder : order.Perm [0, 1]) :
    combine_and_upload_high_ram exampleCfg exampleFs order response (fun b => b) =
      .done ⟨[100], [111], CONTENT_TYPE_BZIP2, [49, 50], some 7200⟩ [] := by
  have hlist : listCsvFiles exampleCfg exampleFs = [pA, pB] := by decide
  rcases highram_run_cases exampleCfg exampleFs order response (fun b => b) exampleBody
      [pA, pB] hlist (horder.trans (by decide))
      (fun p hp => ⟨1, by fin_cases hp <;> rfl⟩) (by decide) (by decide) with h | h
  · rw [highram_aborted_iff _ _ _ _ _ (by decide), hlist, gate_exampleFs response] at h
    exact absurd h (by decide)
  · exact h.trans (by decide)

/-! Claim theorems. -/

/-- C1 counterexample: the claim fails for the streaming-chunked variant.
With the two example objects (`a.csv` body `[49]`, `b.csv` body `[50]`) and
fetch completions arriving in the order `b.csv` first then `a.csv`
(`order = [1, 0]`), the streaming variant feeds the compressor `[50, 49]`
(arrival order), not the sorted-path concatenation `[49, 50]`; shown with the
injective identity compressor, so the compressed outputs differ too. -/
theorem C1_streaming_unsorted_counterexample :
    combine_and_upload_streaming_chunked exampleCfg exampleFs [1, 0] (fun b => b) =
      .ok ⟨[100], [111], CONTENT_TYPE_BZIP2, [50, 49], none⟩ ∧
    (([pA, pB].map exampleBody).flatten : Bytes) = [49, 50] ∧
    ([50, 49] : Bytes) ≠ [49, 50] :=
  ⟨by decide, by decide, by decide⟩

/-- C1 (amended): in the high-RAM variant the claim holds: whenever the run
completes with an upload, the uncompressed body fed to the compressor is the
concatenation of the object bodies ordered lexicographically by path,
regardless of the order in which parallel fetch completions arrive (`order` is
an arbitrary permutation), and no missing-data warning fires.  The streaming
variant instead concatenates in completion order (see the counterexample). -/
theorem C1_highram_output_is_sorted_concat (cfg : Config) (fs : GCSFileSystem)
    (order : List ℕ) (response : PyStr) (compress : Bytes → Bytes)
    (B : PyStr → Bytes) (L : List PyStr)
    (hL : L.Perm ((fs.find (cfg.SOURCE_BUCKET ++ [47] ++ cfg.gcsPathFilter)).filter
        (fun f => csvSuffix.isSuffixOf f)))
    (hsorted : L.Sorted (· ≤ ·))
    (horder : order.Perm (List.range L.length))
    (hsize : ∀ p ∈ L, ∃ k, fs.size p = .ok k)
    (hread : ∀ p ∈ L, fs.read p = .ok (B p))
    (up : Upload) (missing : List ℕ)
    (hrun : combine_and_upload_high_ram cfg fs order response compress = .done up missing) :
    up.body = compress (L.map B).flatten ∧ missing = [] := by
  have hlist := listCsvFiles_eq cfg fs L hL hsorted
  by_cases hnil : L = []
  · exfalso
    unfold combine_and_upload_high_ram at hrun
    rw [hlist, hnil] at hrun
    exact absurd hrun (by simp)
  · rcases highram_run_cases cfg fs order response compress B L hlist horder
        hsize hread hnil with h | h
    · rw [h] at hrun
      exact absurd hrun (by simp)
    · rw [h] at hrun
      injection hrun with h1 h2
      rw [← h1, ← h2]
      exact ⟨rfl, rfl⟩

/-- C1 witness: the amended theorem applied to the example store at the
reversed arrival order `[1, 0]`. -/
theorem C1_highram_output_is_sorted_concat_witness :
    Upload.body ⟨[100], [111], CONTENT_TYPE_BZIP2, [49, 50], some 7200⟩ =
      (fun b => b) (([pA, pB].map exampleBody).flatten) ∧ ([] : List ℕ) = [] :=
  C1_highram_output_is_sorted_concat exampleCfg exampleFs [1, 0] [] (fun b => b)
    exampleBody [pA, pB] (by decide) (by decide) (by decide)
    (fun p hp => ⟨1, by fin_cases hp <;> rfl⟩) (by decide)
    ⟨[100], [111], CONTENT_TYPE_BZIP2, [49, 50], some 7200⟩ []
    (exampleRun_done [1, 0] [] (by decide))

/-- C2 counterexample: on identical input sets the high-RAM variant (arrival
order `[1, 0]`) uploads the compression of `[49, 50]` while the streaming
variant at the same arrival order uploads the compression of `[50, 49]`;
with the deterministic injective identity compressor the outputs differ
byte-for-byte. -/
theorem C2_variants_differ_counterexample :
    combine_and_upload_high_ram exampleCfg exampleFs [1, 0] [] (fun b => b) =
      .done ⟨[100], [111], CONTENT_TYPE_BZIP2, [49, 50], some 7200⟩ [] ∧
    combine_and_upload_streaming_chunked exampleCfg exampleFs [1, 0] (fun b => b) =
      .ok ⟨[100], [111], CONTENT_TYPE_BZIP2, [50, 49], none⟩ ∧
    Upload.body ⟨[100], [111], CONTENT_TYPE_BZIP2, [49, 50], some 7200⟩ ≠
      Upload.body ⟨[100], [111], CONTENT_TYPE_BZIP2, [50, 49], none⟩ :=
  ⟨exampleRun_done [1, 0] [] (by decide), by decide, by decide⟩

/-- C2 (amended): the two variants produce byte-identical compressed output
for identical input sets whenever the streaming variant's completions happen
to arrive in sorted-path order (the high-RAM variant's arrival order may still
be arbitrary); in general the streaming variant's output depends on arrival
order (see the counterexample). -/
theorem C2_variants_agree_when_arrival_sorted (cfg : Config) (fs : GCSFileSystem)
    (order : List ℕ) (response : PyStr) (compress : Bytes → Bytes)
    (B : PyStr → Bytes) (L : List PyStr)
    (hL : L.Perm ((fs.find (cfg.SOURCE_BUCKET ++ [47] ++ cfg.gcsPathFilter)).filter
        (fun f => csvSuffix.isSuffixOf f)))
    (hsorted : L.Sorted (· ≤ ·))
    (horder : order.Perm (List.range L.length))
    (hsize : ∀ p ∈ L, ∃ k, fs.size p = .ok k)
    (hread : ∀ p ∈ L, fs.read p = .ok (B p))
    (up₁ : Upload) (m : List ℕ) (up₂ : Upload)
    (h1 : combine_and_upload_high_ram cfg fs order response compress = .done up₁ m)
    (h2 : combine_and_upload_streaming_chunked cfg fs (List.range L.length) compress =
      .ok up₂) :
    up₁.body = up₂.body := by
  have hlist := listCsvFiles_eq cfg fs L hL hsorted
  by_cases hnil : L = []
  · exfalso
    unfold combine_and_upload_high_ram at h1
    rw [hlist, hnil] at h1
    exact absurd h1 (by simp)
  · have hstream := streaming_ok cfg fs (List.range L.length) compress B L hlist
      (fun i hi => List.mem_range.mp hi) hread
    rw [hstream] at h2
    injection h2 with h2
    rcases highram_run_cases cfg fs order response compress B L hlist horder
        hsize hread hnil with h | h
    · rw [h] at h1
      exact absurd h1 (by simp)
    · rw [h] at h1
      injection h1 with h1 _
      rw [← h1, ← h2]
      show compress (L.map B).flatten = compress _
      rw [map_getD_range]

/-- C2 witness: the amended theorem at the example store, with the high-RAM
variant receiving completions in reversed order and the streaming variant in
sorted order. -/
theorem C2_variants_agree_when_arrival_sorted_witness :
    Upload.body ⟨[100], [111], CONTENT_TYPE_BZIP2, [49, 50], some 7200⟩ =
      Upload.body ⟨[100], [111], CONTENT_TYPE_BZIP2, [49, 50], none⟩ :=
  C2_variants_agree_when_arrival_sorted exampleCfg exampleFs [1, 0] [] (fun b => b)
    exampleBody [pA, pB] (by decide) (by decide) (by decide)
    (fun p hp => ⟨1, by fin_cases hp <;> rfl⟩) (by decide)
    ⟨[100], [111], CONTENT_TYPE_BZIP2, [49, 50], some 7200⟩ []
    ⟨[100], [111], CONTENT_TYPE_BZIP2, [49, 50], none⟩
    (exampleRun_done [1, 0] [] (by decide)) (by decide)

/-- C3 counterexample: with the delivery of index 1 withheld past pipeline
completion (`order = [0]` delivers only index 0), the high-RAM run does not
raise any error: it completes, prints a missing-data warning for index 1
(recorded as `[1]`), and uploads the silently truncated body `[49]`. -/
theorem C3_missing_index_no_error_counterexample :
    combine_and_upload_high_ram exampleCfg exampleFs [0] [] (fun b => b) =
      .done ⟨[100], [111], CONTENT_TYPE_BZIP2, [49], some 7200⟩ [1] := by
  have hlist : listCsvFiles exampleCfg exampleFs = [pA, pB] := by decide
  unfold combine_and_upload_high_ram
  rw [hlist, gate_exampleFs ([] : PyStr)]
  rw [if_neg (by decide : ¬(([pA, pB] : List PyStr).isEmpty = true)), if_pos rfl]
  rw [show collectDownloads exampleFs [pA, pB] [0] [] = .ok [(0, [49])] from by decide]
  decide

/-- C3 (amended): a payload absent at compression time is not an error: the
loop prints a warning naming the missing index and skips it, and the stream
fed to the compressor concatenates only the payloads that are present
(missing indices contribute nothing), silently truncating the output. -/
theorem C3_missing_index_warns_and_truncates (d : List (ℕ × Bytes)) (n j : ℕ)
    (hj : j < n) (hmiss : d.lookup j = none) :
    j ∈ (writeOrderedChunks d n).2 ∧
    (writeOrderedChunks d n).1 =
      ((List.range n).map fun i => (d.lookup i).getD []).flatten := by
  constructor
  · rw [writeOrderedChunks_snd]
    simp [List.mem_filter, List.mem_range, hj, hmiss]
  · exact writeOrderedChunks_fst d n

/-- C3 witness: the amended theorem at the dictionary holding only index 0 of
an expected two. -/
theorem C3_missing_index_warns_and_truncates_witness :
    1 ∈ (writeOrderedChunks [(0, [49])] 2).2 ∧
    (writeOrderedChunks [(0, [49])] 2).1 =
      ((List.range 2).map fun i => (([(0, [49])] : List (ℕ × Bytes)).lookup i).getD []).flatten :=
  C3_missing_index_warns_and_truncates [(0, [49])] 2 1 (by decide) (by decide)

/-- C4: if any single listed object's retrieval fails, no destination object
is ever written: the high-RAM run can never reach `.done` (and once it is past
the listing and budget gate it terminates with the propagated download error),
and the streaming run, whose retrieval is the body read, likewise never
reaches a successful upload when that read fails. -/
theorem C4_single_failure_aborts_run (cfg : Config) (fs : GCSFileSystem)
    (order : List ℕ) (response : PyStr) (compress : Bytes → Bytes)
    (horder : order.Perm (List.range (listCsvFiles cfg fs).length))
    (p : PyStr) (hp : p ∈ listCsvFiles cfg fs)
    (hfail : ((fs.size p).isOk && (fs.read p).isOk) = false) :
    (∀ up m, combine_and_upload_high_ram cfg fs order response compress ≠ .done up m) ∧
    (combine_and_upload_high_ram cfg fs order response compress ≠ .aborted →
      ∃ e, combine_and_upload_high_ram cfg fs order response compress = .downloadError e) ∧
    ((fs.read p).isOk = false →
      ∀ up, combine_and_upload_streaming_chunked cfg fs order compress ≠ .ok up) := by
  obtain ⟨i, hilen, hieq⟩ := List.mem_iff_getElem.mp hp
  have hgetD : (listCsvFiles cfg fs).getD i [] = p := by
    rw [List.getD_eq_getElem _ [] hilen, hieq]
  have hiord : i ∈ order := horder.mem_iff.mpr (List.mem_range.mpr hilen)
  have hdlbad : (download_entire_file fs ((listCsvFiles cfg fs).getD i []) i).isOk = false := by
    rw [hgetD, download_entire_file_isOk, hfail]
  have hnotok : ∀ dict, collectDownloads fs (listCsvFiles cfg fs) order [] ≠ .ok dict := by
    intro dict hcd
    have h2 := collectDownloads_forall_isOk fs (listCsvFiles cfg fs) order [] dict hcd i hiord
    rw [hdlbad] at h2
    exact absurd h2 (by decide)
  have hempty : (listCsvFiles cfg fs).isEmpty = false :=
    isEmpty_false_of_ne_nil (List.ne_nil_of_mem hp)
  have hform : combine_and_upload_high_ram cfg fs order response compress = .aborted ∨
      ∃ e, combine_and_upload_high_ram cfg fs order response compress = .downloadError e := by
    unfold combine_and_upload_high_ram
    rw [hempty, if_neg (by decide : ¬(false = true))]
    cases hg : highRamGate cfg fs (listCsvFiles cfg fs) response
    · left
      rw [if_neg (by decide : ¬(false = true))]
    · right
      rw [if_pos rfl]
      cases hcd : collectDownloads fs (listCsvFiles cfg fs) order [] with
      | err e => exact ⟨e, rfl⟩
      | ok dict => exact absurd hcd (hnotok dict)
  refine ⟨?_, ?_, ?_⟩
  · intro up m hdone
    rcases hform with h | ⟨e, h⟩ <;> rw [hdone] at h <;> exact absurd h (by simp)
  · intro hnab
    rcases hform with h | h
    · exact absurd h hnab
    · exact h
  · intro hrbad
    exact streaming_fails_of_read_err cfg fs order compress i hiord (by rw [hgetD]; exact hrbad)

/-- C4 witness: the theorem applied to the store in which reading `b.csv`
raises. -/
theorem C4_single_failure_aborts_run_witness :
    (∀ up m, combine_and_upload_high_ram exampleCfg failFs [0, 1] [] (fun b => b) ≠
      .done up m) ∧
    (combine_and_upload_high_ram exampleCfg failFs [0, 1] [] (fun b => b) ≠ .aborted →
      ∃ e, combine_and_upload_high_ram exampleCfg failFs [0, 1] [] (fun b => b) =
        .downloadError e) ∧
    ((failFs.read pB).isOk = false →
      ∀ up, combine_and_upload_streaming_chunked exampleCfg failFs [0, 1] (fun b => b) ≠
        .ok up) :=
  C4_single_failure_aborts_run exampleCfg failFs [0, 1] [] (fun b => b) (by decide)
    pB (by decide) (by decide)

/-- C5 counterexample: on an empty listing the streaming variant is not a
no-op without destination write: it uploads the compression of the empty
stream (here with the identity compressor, an empty body) to the
destination. -/
theorem C5_streaming_writes_on_empty_counterexample :
    listCsvFiles exampleCfg emptyFs = [] ∧
    combine_and_upload_streaming_chunked exampleCfg emptyFs [] (fun b => b) =
      .ok ⟨[100], [111], CONTENT_TYPE_BZIP2, [], none⟩ :=
  ⟨by decide, by decide⟩

/-- C5 (amended): on a listing with zero matching `.csv` objects the high-RAM
variant is a clean no-op that returns before any download or upload; the
streaming variant, which has no empty-listing check, still compresses the
empty stream and writes it to the destination object. -/
theorem C5_empty_listing_behaviour (cfg : Config) (fs : GCSFileSystem)
    (order : List ℕ) (response : PyStr) (compress : Bytes → Bytes)
    (h : listCsvFiles cfg fs = []) :
    combine_and_upload_high_ram cfg fs order response compress = .noCsvFiles ∧
    combine_and_upload_streaming_chunked cfg fs [] compress =
      .ok ⟨cfg.DEST_BUCKET, cfg.DEST_FILENAME, CONTENT_TYPE_BZIP2, compress [], none⟩ := by
  constructor
  · unfold combine_and_upload_high_ram
    rw [h]
    rfl
  · rfl

/-- C5 witness: the amended theorem at the empty example store. -/
theorem C5_empty_listing_behaviour_witness :
    combine_and_upload_high_ram exampleCfg emptyFs [] [] (fun b => b) = .noCsvFiles ∧
    combine_and_upload_streaming_chunked exampleCfg emptyFs [] (fun b => b) =
      .ok ⟨exampleCfg.DEST_BUCKET, exampleCfg.DEST_FILENAME, CONTENT_TYPE_BZIP2,
           (fun b => b) [], none⟩ :=
  C5_empty_listing_behaviour exampleCfg emptyFs [] [] (fun b => b) (by decide)

/-- C6: for a non-empty listing the size estimator samples exactly the first
`min 10 N` objects of the sorted listing, projects `(sum of sampled sizes) /
K * N / 1024^3` gigabytes, and the run is aborted at the gate exactly when
this projection exceeds `MEMORY_LIMIT_GB` and the prompt response is not
`"y"`; in particular when the sampling raises, the estimate is skipped with a
warning and the run is never aborted at the gate. -/
theorem C6_estimator_contract (cfg : Config) (fs : GCSFileSystem)
    (order : List ℕ) (response : PyStr) (compress : Bytes → Bytes)
    (hne : listCsvFiles cfg fs ≠ []) :
    (∀ szs : List ℕ,
      mapRes fs.size
          ((listCsvFiles cfg fs).take (min 10 (listCsvFiles cfg fs).length)) = .ok szs →
      estimateTotalGB fs (listCsvFiles cfg fs) =
        .ok ((szs.sum : ℚ) / ((min 10 (listCsvFiles cfg fs).length : ℕ) : ℚ)
          * (((listCsvFiles cfg fs).length : ℕ) : ℚ) / (1024 : ℚ) ^ 3)) ∧
    (combine_and_upload_high_ram cfg fs order response compress = .aborted ↔
      ∃ g : ℚ, estimateTotalGB fs (listCsvFiles cfg fs) = .ok g ∧
        g > (cfg.MEMORY_LIMIT_GB : ℚ) ∧ pyNormalize response ≠ yStr) := by
  constructor
  · intro szs h
    unfold estimateTotalGB
    rw [h, List.length_take, min_eq_left (min_le_right 10 (listCsvFiles cfg fs).length)]
  · rw [highram_aborted_iff cfg fs order response compress hne,
      highRamGate_eq_false_iff]

/-- C6 witness: the theorem applied to the large-size example store with a
declining response (`"n"`). -/
theorem C6_estimator_contract_witness :
    (∀ szs : List ℕ,
      mapRes bigFs.size
          ((listCsvFiles exampleCfg bigFs).take
            (min 10 (listCsvFiles exampleCfg bigFs).length)) = .ok szs →
      estimateTotalGB bigFs (listCsvFiles exampleCfg bigFs) =
        .ok ((szs.sum : ℚ) / ((min 10 (listCsvFiles exampleCfg bigFs).length : ℕ) : ℚ)
          * (((listCsvFiles exampleCfg bigFs).length : ℕ) : ℚ) / (1024 : ℚ) ^ 3)) ∧
    (combine_and_upload_high_ram exampleCfg bigFs [0, 1] [110] (fun b => b) = .aborted ↔
      ∃ g : ℚ, estimateTotalGB bigFs (listCsvFiles exampleCfg bigFs) = .ok g ∧
        g > (exampleCfg.MEMORY_LIMIT_GB : ℚ) ∧ pyNormalize [110] ≠ yStr) :=
  C6_estimator_contract exampleCfg bigFs [0, 1] [110] (fun b => b) (by decide)

/-- C7 counterexample: a successful streaming run whose uploaded body is the
compression of the arrival-order concatenation `[50, 49]`, not of the
sorted-path concatenation `[49, 50]` (identity compressor). -/
theorem C7_streaming_body_unsorted_counterexample :
    combine_and_upload_streaming_chunked exampleCfg exampleFs [1, 0] (fun b => b) =
      .ok ⟨[100], [111], CONTENT_TYPE_BZIP2, [50, 49], none⟩ ∧
    Upload.body ⟨[100], [111], CONTENT_TYPE_BZIP2, [50, 49], none⟩ ≠
      (fun b => b) (([pA, pB].map exampleBody).flatten) :=
  ⟨by decide, by decide⟩

/-- C7 (amended): every successful high-RAM run writes exactly one destination
object, at `DEST_BUCKET`/`DEST_FILENAME`, with content type
`application/x-bzip2`, whose body is the maximum-level (compresslevel 9)
block compression of the input bodies concatenated in sorted-path order with
no separators; the streaming variant writes the same object fields but
concatenates in arrival order (see the counterexample). -/
theorem C7_destination_object_fields (cfg : Config) (fs : GCSFileSystem)
    (order : List ℕ) (response : PyStr) (compress : Bytes → Bytes)
    (B : PyStr → Bytes) (L : List PyStr)
    (hL : L.Perm ((fs.find (cfg.SOURCE_BUCKET ++ [47] ++ cfg.gcsPathFilter)).filter
        (fun f => csvSuffix.isSuffixOf f)))
    (hsorted : L.Sorted (· ≤ ·))
    (horder : order.Perm (List.range L.length))
    (hsize : ∀ p ∈ L, ∃ k, fs.size p = .ok k)
    (hread : ∀ p ∈ L, fs.read p = .ok (B p))
    (up : Upload) (missing : List ℕ)
    (hrun : combine_and_upload_high_ram cfg fs order response compress = .done up missing) :
    up = ⟨cfg.DEST_BUCKET, cfg.DEST_FILENAME, CONTENT_TYPE_BZIP2,
          compress (L.map B).flatten, some 7200⟩ ∧
    compressLevelHighRam = 9 := by
  have hlist := listCsvFiles_eq cfg fs L hL hsorted
  by_cases hnil : L = []
  · exfalso
    unfold combine_and_upload_high_ram at hrun
    rw [hlist, hnil] at hrun
    exact absurd hrun (by simp)
  · rcases highram_run_cases cfg fs order response compress B L hlist horder
        hsize hread hnil with h | h
    · rw [h] at hrun
      exact absurd hrun (by simp)
    · rw [h] at hrun
      injection hrun with h1 h2
      exact ⟨h1.symm, rfl⟩

/-- C7 witness: the amended theorem at the example store with reversed arrival
order. -/
theorem C7_destination_object_fields_witness :
    (⟨[100], [111], CONTENT_TYPE_BZIP2, [49, 50], some 7200⟩ : Upload) =
      ⟨exampleCfg.DEST_BUCKET, exampleCfg.DEST_FILENAME, CONTENT_TYPE_BZIP2,
       (fun b => b) (([pA, pB].map exampleBody).flatten), some 7200⟩ ∧
    compressLevelHighRam = 9 :=
  C7_destination_object_fields exampleCfg exampleFs [1, 0] [] (fun b => b)
    exampleBody [pA, pB] (by decide) (by decide) (by decide)
    (fun p hp => ⟨1, by fin_cases hp <;> rfl⟩) (by decide)
    ⟨[100], [111], CONTENT_TYPE_BZIP2, [49, 50], some 7200⟩ []
    (exampleRun_done [1, 0] [] (by decide))

/-- C8 counterexample: the streaming variant's operations carry no timeouts:
its filesystem is constructed without a per-request (download) timeout, and a
successful streaming run's upload call passes no timeout either. -/
theorem C8_streaming_has_no_timeouts_counterexample :
    streamingFsInit.requests_timeout = none ∧
    combine_and_upload_streaming_chunked exampleCfg exampleFs [0, 1] (fun b => b) =
      .ok ⟨[100], [111], CONTENT_TYPE_BZIP2, [49, 50], none⟩ :=
  ⟨rfl, by decide⟩

/-- C8 (amended): no overall run timeout is imposed; in the high-RAM variant
each download carries the filesystem-level 300-second request timeout and the
upload a 7200-second timeout, but in the streaming variant neither the
downloads (no `requests_timeout`) nor the upload (no timeout argument) carry
one. -/
theorem C8_per_operation_timeouts (cfg cfg₂ : Config) (fs fs₂ : GCSFileSystem)
    (order order₂ : List ℕ) (response : PyStr) (compress compress₂ : Bytes → Bytes)
    (up : Upload) (m : List ℕ) (up₂ : Upload)
    (h1 : combine_and_upload_high_ram cfg fs order response compress = .done up m)
    (h2 : combine_and_upload_streaming_chunked cfg₂ fs₂ order₂ compress₂ = .ok up₂) :
    highRamFsInit.requests_timeout = some 300 ∧ up.timeoutSecs = some 7200 ∧
    streamingFsInit.requests_timeout = none ∧ up₂.timeoutSecs = none :=
  ⟨rfl, highram_done_timeout cfg fs order response compress up m h1, rfl,
    streaming_ok_timeout cfg₂ fs₂ order₂ compress₂ up₂ h2⟩

/-- C8 witness: the amended theorem at a completed high-RAM run and a
completed streaming run on the example store. -/
theorem C8_per_operation_timeouts_witness :
    highRamFsInit.requests_timeout = some 300 ∧
    Option.some 7200 = some 7200 ∧
    streamingFsInit.requests_timeout = none ∧
    (none : Option ℕ) = none := by
  have h := C8_per_operation_timeouts exampleCfg exampleCfg exampleFs exampleFs
    [0, 1] [0, 1] [] (fun b => b) (fun b => b)
    ⟨[100], [111], CONTENT_TYPE_BZIP2, [49, 50], some 7200⟩ []
    ⟨[100], [111], CONTENT_TYPE_BZIP2, [49, 50], none⟩
    (exampleRun_done [0, 1] [] (by decide)) (by decide)
  exact h

/-- C9: under the thread-pool execution model with `cfg.MAX_WORKERS` worker
threads (`ThreadPoolExecutor(max_workers=MAX_WORKERS)`, default 32), at most
`cfg.MAX_WORKERS` retrievals are executing at any instant. -/
theorem C9_concurrency_limit_respected (cfg : Config) (n : ℕ)
    (s : PoolSchedule cfg.MAX_WORKERS n) (t : ℕ) :
    (s.active t).card ≤ cfg.MAX_WORKERS := by
  have hsub : ∀ i ∈ s.active t,
      s.worker i ∈ (Finset.univ : Finset (Fin cfg.MAX_WORKERS)) :=
    fun i _ => Finset.mem_univ _
  have hinj : Set.InjOn s.worker (s.active t) := by
    intro i hi j hj heq
    by_contra hne
    have hi' := Finset.mem_filter.mp (Finset.mem_coe.mp hi)
    have hj' := Finset.mem_filter.mp (Finset.mem_coe.mp hj)
    rcases s.same_worker_disjoint i j hne heq with h | h
    · exact lt_irrefl t (lt_of_lt_of_le (lt_of_lt_of_le hi'.2.2 h) hj'.2.1)
    · exact lt_irrefl t (lt_of_lt_of_le (lt_of_lt_of_le hj'.2.2 h) hi'.2.1)
  calc (s.active t).card ≤ (Finset.univ : Finset (Fin cfg.MAX_WORKERS)).card :=
      Finset.card_le_card_of_injOn s.worker hsub hinj
    _ = cfg.MAX_WORKERS := by simp

/-- C9 witness: the bound at a concrete two-task schedule, with the default
worker count 32. -/
theorem C9_concurrency_limit_respected_witness :
    (examplePool.active 0).card ≤ exampleCfg.MAX_WORKERS ∧
    exampleCfg.MAX_WORKERS = MAX_WORKERS_DEFAULT :=
  ⟨C9_concurrency_limit_respected exampleCfg 2 examplePool 0, rfl⟩

/-- C10: in the high-RAM variant, when the size projection exceeds the memory
budget, the run returns immediately as `.aborted` (before any download,
compression or upload, leaving the destination unwritten) exactly when the
response, stripped of surrounding whitespace and lowercased, differs from
`"y"`; equivalently it continues only for a normalized response of exactly
`"y"`. -/
theorem C10_prompt_requires_exact_y (cfg : Config) (fs : GCSFileSystem)
    (order : List ℕ) (response : PyStr) (compress : Bytes → Bytes)
    (hne : listCsvFiles cfg fs ≠ []) (g : ℚ)
    (hest : estimateTotalGB fs (listCsvFiles cfg fs) = .ok g)
    (hover : g > (cfg.MEMORY_LIMIT_GB : ℚ)) :
    combine_and_upload_high_ram cfg fs order response compress = .aborted ↔
      pyNormalize response ≠ yStr := by
  rw [highram_aborted_iff cfg fs order response compress hne, highRamGate_eq_false_iff]
  constructor
  · rintro ⟨g', -, -, hne'⟩
    exact hne'
  · intro hne'
    exact ⟨g, hest, hover, hne'⟩

/-- C10 witness: the theorem at the large-size store with the declining
response `"n"`. -/
theorem C10_prompt_requires_exact_y_witness :
    combine_and_upload_high_ram exampleCfg bigFs [0, 1] [110] (fun b => b) = .aborted ↔
      pyNormalize [110] ≠ yStr :=
  C10_prompt_requires_exact_y exampleCfg bigFs [0, 1] [110] (fun b => b) (by decide)
    _ (by rw [show listCsvFiles exampleCfg bigFs = [pA, pB] from by decide]; exact est_bigFs)
    (by norm_num [List.length_take, pA, pB, exampleCfg])

end CombineCsv
